import Mathlib

/-!
Verification of the `ai-image` wrapper (`src/index.ts`, `src/cli.ts`).

The development shallowly embeds the pure content of the TypeScript code:
filesystem state is an explicit list of existing paths, JS strings are Lean
strings (UTF-16 code units modelled as Lean characters), JS numbers arising
from `parseInt` are `Option Int` with `none` standing for `NaN`, and the
Node `path` helpers are modelled for the slash-free filenames the code
passes to them.  Fallible operations return `Except`.
-/

namespace AiImage

/-! ### JS character classes -/

/-- Characters removed by `sanitizeFilename`'s first regex
`[<>:"/\\|?*\x00-\x1F]` in `src/index.ts`. -/
def isFilenameIllegal (c : Char) : Bool :=
  c = '<' || c = '>' || c = ':' || c = '"' || c = '/' || c = '\\' ||
  c = '|' || c = '?' || c = '*' || c.toNat ≤ 0x1F

/-- The JS regex class `\s` (ECMAScript WhiteSpace plus LineTerminator):
space, tab, LF, VT, FF, CR, NBSP, Ogham space, the U+2000..U+200A range,
LS, PS, NNBSP, MMSP, ideographic space and the BOM. -/
def isJsWhitespace (c : Char) : Bool :=
  c = ' ' || c = '\t' || c = '\n' || c.toNat = 0x0B || c.toNat = 0x0C ||
  c = '\r' || c.toNat = 0xA0 || c.toNat = 0x1680 ||
  (0x2000 ≤ c.toNat && c.toNat ≤ 0x200A) ||
  c.toNat = 0x2028 || c.toNat = 0x2029 || c.toNat = 0x202F ||
  c.toNat = 0x205F || c.toNat = 0x3000 || c.toNat = 0xFEFF

/-! ### `sanitizeFilename` (src/index.ts lines 72-78) -/

/-- One pass of `.replace(/\s+/g, '_')`: each maximal run of `\s`
characters becomes a single underscore.  The boolean records whether the
previous character belonged to a whitespace run. -/
def collapseWsGo : Bool → List Char → List Char
  | _, [] => []
  | prevWs, c :: cs =>
    if isJsWhitespace c then
      if prevWs then collapseWsGo true cs
      else '_' :: collapseWsGo true cs
    else c :: collapseWsGo false cs

/-- `.replace(/\s+/g, '_')` on a character list. -/
def collapseWs (cs : List Char) : List Char :=
  collapseWsGo false cs

/-- `sanitizeFilename` from src/index.ts: strip the illegal characters,
collapse whitespace runs to `_`, truncate to 200 characters
(`substring(0, 200)`). -/
def sanitizeFilename (filename : String) : String :=
  ⟨(collapseWs (filename.data.filter (fun c => !isFilenameIllegal c))).take 200⟩

/-! ### Node `path` helpers, modelled for slash-free filenames -/

/-- Split a character list at its LAST dot: `some (before, fromDot)`.
A split found in the tail wins, so the rightmost dot is chosen. -/
def lastDotSplit : List Char → Option (List Char × List Char)
  | [] => none
  | c :: cs =>
    match lastDotSplit cs with
    | some (a, b) => some (c :: a, b)
    | none => if c = '.' then some ([], c :: cs) else none

/-- `path.extname` composed with `path.basename(f, ext)` for a filename
with no directory separators: `splitExt f = (name, ext)` with
`name ++ ext = f`.  Following Node, a dot in first position starts no
extension (the search runs over the tail only) and the literal name
`".."` has no extension. -/
def splitExt (f : String) : String × String :=
  if f.data = ['.', '.'] then (f, "") else
  match f.data with
  | [] => (f, "")
  | c :: cs =>
    match lastDotSplit cs with
    | some (a, b) => (⟨c :: a⟩, ⟨b⟩)
    | none => (f, "")

/-- `path.join(dir, f)` for a directory with no trailing separator
(normalisation of the directory part is elided). -/
def pathJoin (dir f : String) : String :=
  dir ++ "/" ++ f

/-! ### `getOutputPath` (src/index.ts lines 80-107) -/

/-- The filename computed before the collision loop (lines 81-92).
`outputFilename?` is `this.outputFilename`; the JS `ext || '.' + extension`
falls back to the default extension when the explicit filename carries
none (empty string is falsy). -/
def initialFilename (outputFilename? : Option String) (prompt : String)
    (index : Nat) (extension : String) : String :=
  match outputFilename? with
  | some f =>
    let ne := splitExt f
    let e := if ne.2 = "" then "." ++ extension else ne.2
    if index > 0 then ne.1 ++ "_" ++ Nat.repr index ++ e else ne.1 ++ e
  | none =>
    let sanitized := sanitizeFilename prompt
    if index > 0 then sanitized ++ "_" ++ Nat.repr index ++ "." ++ extension
    else sanitized ++ "." ++ extension

/-- The candidate tried by the collision loop after `k` bumps: `k = 0` is
the initial path, and bump `k ≥ 1` re-splits the (unchanged) initial
filename and inserts a space plus the counter before the extension
(lines 99-102). -/
def candidatePath (dir filename : String) : Nat → String
  | 0 => pathJoin dir filename
  | k + 1 =>
    pathJoin dir ((splitExt filename).1 ++ " " ++ Nat.repr (k + 1) ++ (splitExt filename).2)

/-- The `while (await this.fileExists(outputPath))` loop of lines 97-104.
`fs` is the set of existing paths; `fileExists` is membership.  The JS
loop is unbounded; here it carries fuel, instantiated below with
`fs.length + 1`, which is enough to reach a free candidate (proved in
`resolveLoop_not_mem`). -/
def resolveLoop (fs : List String) (dir filename : String) :
    Nat → Nat → String → String
  | 0, _, outputPath => outputPath
  | fuel + 1, counter, outputPath =>
    if outputPath ∈ fs then
      resolveLoop fs dir filename fuel (counter + 1)
        (pathJoin dir ((splitExt filename).1 ++ " " ++ Nat.repr counter ++ (splitExt filename).2))
    else outputPath

/-- `getOutputPath` from src/index.ts, as a function of the existing
paths `fs`, the output directory, the configured `outputFilename`, the
prompt, the image index and the extension (default `png` at call sites
that omit it). -/
def getOutputPath (fs : List String) (dir : String)
    (outputFilename? : Option String) (prompt : String)
    (index : Nat) (extension : String) : String :=
  let filename := initialFilename outputFilename? prompt index extension
  resolveLoop fs dir filename (fs.length + 1) 1 (pathJoin dir filename)

/-! ### JS truthiness helpers -/

/-- `a || d` for a JS string-valued option: `undefined` and `""` are falsy. -/
def jsOrStr (a : Option String) (d : String) : String :=
  match a with
  | some s => if s = "" then d else s
  | none => d

/-- `a || d` for a JS number-valued option: `undefined` and `0` are falsy. -/
def jsOrNat (a : Option Nat) (d : Nat) : Nat :=
  match a with
  | some k => if k = 0 then d else k
  | none => d

/-- `a || b` with both operands optional strings. -/
def jsOrOptStr (a b : Option String) : Option String :=
  match a with
  | some s => if s = "" then b else some s
  | none => b

/-! ### Constructor (src/index.ts lines 38-70) -/

/-- Errors thrown by the `ImageGenerator` constructor.  `missingKey p`
stands for the message `[AI-IMAGE] API key for p not found...` (line 46),
`unsupported p` for `Unsupported provider: p` (line 57). -/
inductive CtorError
  | missingKey (provider : String)
  | unsupported (provider : String)
deriving DecidableEq, Repr

/-- The configuration the constructor stores on success. -/
structure Generator where
  provider : String
  outputDir : String
  outputFilename? : Option String
deriving DecidableEq, Repr

/-- Constructor arguments (`ImageGeneratorOptions`). -/
structure ImageGeneratorOptions where
  provider : String
  apiKey? : Option String
  outputDir? : Option String
  outputFilename? : Option String

/-- `getApiKeyFromEnv` (lines 61-70): the environment is a lookup
function; unknown providers yield `undefined`. -/
def getApiKeyFromEnv (env : String → Option String) (provider : String) : Option String :=
  if provider = "openai" then env "OPENAI_API_KEY"
  else if provider = "replicate" then env "REPLICATE_API_TOKEN"
  else none

/-- The `ImageGenerator` constructor: store output settings, resolve the
API key (`options.apiKey || getApiKeyFromEnv(provider)`), throw the
missing-key error when the result is falsy, then switch on the provider
with `Unsupported provider` as the default arm. -/
def constructGenerator (opts : ImageGeneratorOptions)
    (env : String → Option String) (cwd : String) : Except CtorError Generator :=
  let g : Generator :=
    { provider := opts.provider
      outputDir := jsOrStr opts.outputDir? cwd
      outputFilename? := opts.outputFilename? }
  match jsOrOptStr opts.apiKey? (getApiKeyFromEnv env opts.provider) with
  | none => .error (.missingKey opts.provider)
  | some k =>
    if k = "" then .error (.missingKey opts.provider)
    else if opts.provider = "openai" then .ok g
    else if opts.provider = "replicate" then .ok g
    else .error (.unsupported opts.provider)

/-! ### Generation options and the OpenAI payload (lines 118-153) -/

/-- `GenerateOptions` from src/index.ts.  Enumerated string options are
kept as strings (the TS union types are compile-time only); `compression`
is the number the CLI obtains from `parseInt`. -/
structure GenerateOptions where
  prompt : String
  model : Option String := none
  size : Option String := none
  quality : Option String := none
  format : Option String := none
  compression : Option Nat := none
  background : Option String := none
  n : Option Nat := none
  debug : Bool := false

/-- The `generateParams` object sent to `openai.images.generate`
(lines 130-148).  `none` in an optional field means the field is absent
from the object. -/
structure OpenAIParams where
  model : String
  prompt : String
  size : String
  quality : String
  n : Nat
  output_format : Option String
  output_compression : Option Nat
  background : Option String
deriving DecidableEq, Repr

/-- Building the OpenAI payload: defaults via JS `||`, then the three
conditional fields of lines 139-148 (`format` attached when truthy and
not `png`; `compression` attached when truthy and the format is `jpeg`
or `webp`; `background` attached when truthy). -/
def openaiGenerateParams (o : GenerateOptions) : OpenAIParams :=
  { model := jsOrStr o.model "gpt-image-1"
    prompt := o.prompt
    size := jsOrStr o.size "1024x1024"
    quality := jsOrStr o.quality "auto"
    n := jsOrNat o.n 1
    output_format :=
      match o.format with
      | some f => if f = "" then none else if f = "png" then none else some f
      | none => none
    output_compression :=
      match o.compression with
      | some c =>
        if c ≠ 0 ∧ (o.format = some "jpeg" ∨ o.format = some "webp") then some c
        else none
      | none => none
    background :=
      match o.background with
      | some b => if b = "" then none else some b
      | none => none }

/-! ### The Replicate payload (lines 168-177) -/

/-- JS `parseInt` restricted to what the code can feed it: skip leading
whitespace, read an optional sign, then the maximal run of decimal
digits; `none` models `NaN` (no digits).  The hexadecimal `0x` prefix
autodetection is elided (unreachable for size strings). -/
def jsParseInt (s : String) : Option Int :=
  let cs := s.data.dropWhile isJsWhitespace
  let signAndRest : Int × List Char :=
    match cs with
    | '-' :: r => (-1, r)
    | '+' :: r => (1, r)
    | _ => (1, cs)
  let ds := signAndRest.2.takeWhile (fun c => '0' ≤ c && c ≤ '9')
  if ds.isEmpty then none
  else some (signAndRest.1 * (ds.foldl (fun a c => 10 * a + (c.toNat - '0'.toNat)) 0 : Nat))

/-- JS `String.prototype.split` with a one-character separator, on
character lists: splits at every occurrence, keeping empty pieces, and
yields `[""]` for the empty string. -/
def jsSplitChar (sep : Char) : List Char → List (List Char)
  | [] => [[]]
  | c :: rest =>
    let r := jsSplitChar sep rest
    if c = sep then [] :: r
    else
      match r with
      | [] => [[c]]
      | h :: t => (c :: h) :: t

/-- `s.split('x')` as a list of strings. -/
def jsSplit (s : String) (sep : Char) : List String :=
  (jsSplitChar sep s.data).map (fun cs => ⟨cs⟩)

/-- `options.size?.split('x')[i] || '1024'`: optional chaining makes the
whole chain `undefined` when `size` is absent, and `undefined` as well as
the empty string fall back to `'1024'`. -/
def sizeComponent (size? : Option String) (i : Nat) : String :=
  match size? with
  | none => "1024"
  | some s =>
    match (jsSplit s 'x').get? i with
    | some t => if t = "" then "1024" else t
    | none => "1024"

/-- The `replicateInput` object of lines 172-177.  `width`/`height` are
`Option Int` with `none` for `NaN`. -/
structure ReplicateInput where
  prompt : String
  width : Option Int
  height : Option Int
  num_outputs : Nat
deriving DecidableEq, Repr

/-- Building the Replicate payload. -/
def replicateInput (o : GenerateOptions) : ReplicateInput :=
  { prompt := o.prompt
    width := jsParseInt (sizeComponent o.size 0)
    height := jsParseInt (sizeComponent o.size 1)
    num_outputs := jsOrNat o.n 1 }

/-! ### The generate save loops and error wrapping (lines 118-210) -/

/-- `options.format || 'png'`, the extension passed to `getOutputPath`
on the OpenAI path (line 162). -/
def formatExtension (format? : Option String) : String :=
  jsOrStr format? "png"

/-- The OpenAI save loop (lines 157-167): `i` ranges over all response
items; an item without `b64_json` (`none`) is skipped without a write,
otherwise the path is resolved and the file written (the write adds the
path to the filesystem). -/
def openaiSaveLoop (dir : String) (outputFilename? : Option String)
    (prompt ext : String) :
    List String → Nat → List (Option String) → List String
  | _, _, [] => []
  | fs, i, none :: rest => openaiSaveLoop dir outputFilename? prompt ext fs (i + 1) rest
  | fs, i, some _ :: rest =>
    let p := getOutputPath fs dir outputFilename? prompt i ext
    p :: openaiSaveLoop dir outputFilename? prompt ext (p :: fs) (i + 1) rest

/-- The Replicate save loop (lines 189-198): every returned URL is
fetched and written; `getOutputPath` is called without an extension
argument, so its default `png` applies. -/
def replicateSaveLoop (dir : String) (outputFilename? : Option String)
    (prompt : String) :
    List String → Nat → List String → List String
  | _, _, [] => []
  | fs, i, _url :: rest =>
    let p := getOutputPath fs dir outputFilename? prompt i "png"
    p :: replicateSaveLoop dir outputFilename? prompt (p :: fs) (i + 1) rest

/-- The OpenAI branch of `generate` together with the surrounding
`try/catch`: a failed provider call (`.error`) is rethrown as
`Failed to generate image: <message>` (line 208); a successful response
is saved item by item and the collected paths are returned.
`callResult` carries, per response item, the optional `b64_json` data. -/
def generateOpenai (fs : List String) (g : Generator) (o : GenerateOptions)
    (callResult : Except String (List (Option String))) : Except String (List String) :=
  match callResult with
  | .error e => .error ("Failed to generate image: " ++ e)
  | .ok data =>
    .ok (openaiSaveLoop g.outputDir g.outputFilename? o.prompt
      (formatExtension o.format) fs 0 data)

/-- The Replicate branch of `generate` with the surrounding `try/catch`;
`callResult` carries the list of returned URLs. -/
def generateReplicate (fs : List String) (g : Generator) (o : GenerateOptions)
    (callResult : Except String (List String)) : Except String (List String) :=
  match callResult with
  | .error e => .error ("Failed to generate image: " ++ e)
  | .ok urls =>
    .ok (replicateSaveLoop g.outputDir g.outputFilename? o.prompt fs 0 urls)

/-! ### CLI prompt validation (src/cli.ts lines 43-46) -/

/-- The CLI guard `if (!options.prompt)`: a missing or empty prompt
prints an error and exits before any generator is constructed. -/
def cliPromptCheck (prompt? : Option String) : Except String Unit :=
  match prompt? with
  | none => .error "Error: Prompt is required. Use --prompt \"your prompt text\""
  | some p =>
    if p = "" then .error "Error: Prompt is required. Use --prompt \"your prompt text\""
    else .ok ()

/-- A string suffix test (used to state extension facts). -/
def hasSuffixStr (s suffix : String) : Bool :=
  suffix.data.isSuffixOf s.data

/-! ### Decimal representation: `Nat.repr` is injective -/

theorem digitChar_inj_lt : ∀ a, a < 10 → ∀ b, b < 10 →
    Nat.digitChar a = Nat.digitChar b → a = b := by decide

theorem map_digitChar_inj : ∀ l1 l2 : List Nat, (∀ d ∈ l1, d < 10) →
    (∀ d ∈ l2, d < 10) → l1.map Nat.digitChar = l2.map Nat.digitChar → l1 = l2 := by
  intro l1
  induction l1 with
  | nil =>
    intro l2 _ _ h
    cases l2 with
    | nil => rfl
    | cons b t => simp at h
  | cons a t ih =>
    intro l2 h1 h2 h
    cases l2 with
    | nil => simp at h
    | cons b t2 =>
      simp only [List.map_cons, List.cons.injEq] at h
      have hab : a = b :=
        digitChar_inj_lt a (h1 a (List.mem_cons_self a t)) b
          (h2 b (List.mem_cons_self b t2)) h.1
      have ht : t = t2 :=
        ih t2 (fun d hd => h1 d (List.mem_cons_of_mem a hd))
          (fun d hd => h2 d (List.mem_cons_of_mem b hd)) h.2
      rw [hab, ht]

theorem toDigitsCore_eq_digits :
    ∀ (fuel n : Nat) (ds : List Char), 0 < n → n ≤ fuel →
      Nat.toDigitsCore 10 fuel n ds =
        ((Nat.digits 10 n).map Nat.digitChar).reverse ++ ds := by
  intro fuel
  induction fuel with
  | zero => intro n ds hn hle; omega
  | succ fuel ih =>
    intro n ds hn hle
    rw [Nat.toDigitsCore]
    by_cases h10 : n / 10 = 0
    · rw [if_pos h10]
      rw [Nat.digits_def' (b := 10) (by norm_num) hn, h10, Nat.digits_zero]
      simp
    · rw [if_neg h10]
      have hdiv : n / 10 < n := Nat.div_lt_self hn (by norm_num)
      rw [ih (n / 10) _ (Nat.pos_of_ne_zero h10) (by omega)]
      rw [Nat.digits_def' (b := 10) (by norm_num) hn]
      simp [List.append_assoc]

theorem toDigits_eq_of_pos (n : Nat) (h : 0 < n) :
    Nat.toDigits 10 n = ((Nat.digits 10 n).map Nat.digitChar).reverse := by
  rw [Nat.toDigits, toDigitsCore_eq_digits (n + 1) n [] h (Nat.le_succ n),
    List.append_nil]

theorem nat_repr_inj : Function.Injective Nat.repr := by
  intro m n h
  have h2 : Nat.toDigits 10 m = Nat.toDigits 10 n := by
    have h1 := congrArg String.data h
    simpa [Nat.repr, List.asString] using h1
  have key : ∀ a : Nat, 0 < a →
      Nat.toDigits 10 a = ['0'] → False := by
    intro a ha hd
    rw [toDigits_eq_of_pos a ha] at hd
    have hmap : (Nat.digits 10 a).map Nat.digitChar = ['0'] := by
      have := congrArg List.reverse hd
      simpa using this
    cases hdig : Nat.digits 10 a with
    | nil => rw [hdig] at hmap; simp at hmap
    | cons d t =>
      rw [hdig] at hmap
      simp only [List.map_cons, List.cons.injEq, List.map_eq_nil_iff] at hmap
      obtain ⟨hd0, ht⟩ := hmap
      have hdlt : d < 10 :=
        Nat.digits_lt_base (by norm_num) (by rw [hdig]; exact List.mem_cons_self d t)
      have : d = 0 := digitChar_inj_lt d hdlt 0 (by norm_num) (by rw [hd0]; rfl)
      have hof := Nat.ofDigits_digits 10 a
      rw [hdig, ht, this] at hof
      simp [Nat.ofDigits] at hof
      omega
  rcases Nat.eq_zero_or_pos m with hm | hm
  · rcases Nat.eq_zero_or_pos n with hn | hn
    · omega
    · exfalso
      subst hm
      exact key n hn h2.symm
  · rcases Nat.eq_zero_or_pos n with hn | hn
    · exfalso
      subst hn
      exact key m hm h2
    · rw [toDigits_eq_of_pos m hm, toDigits_eq_of_pos n hn] at h2
      have h3 : (Nat.digits 10 m).map Nat.digitChar = (Nat.digits 10 n).map Nat.digitChar := by
        have := congrArg List.reverse h2
        simpa using this
      have h4 := map_digitChar_inj _ _
        (fun d hd => Nat.digits_lt_base (by norm_num) hd)
        (fun d hd => Nat.digits_lt_base (by norm_num) hd) h3
      calc m = Nat.ofDigits 10 (Nat.digits 10 m) := (Nat.ofDigits_digits 10 m).symm
        _ = Nat.ofDigits 10 (Nat.digits 10 n) := by rw [h4]
        _ = n := Nat.ofDigits_digits 10 n

/-! ### The stem/extension split recomposes to the filename -/

theorem lastDotSplit_append : ∀ (cs : List Char) (a b : List Char),
    lastDotSplit cs = some (a, b) → cs = a ++ b := by
  intro cs
  induction cs with
  | nil => intro a b h; simp [lastDotSplit] at h
  | cons c cs ih =>
    intro a b h
    rw [lastDotSplit] at h
    cases hm : lastDotSplit cs with
    | some p =>
      obtain ⟨a', b'⟩ := p
      rw [hm] at h
      simp only [Option.some.injEq, Prod.mk.injEq] at h
      obtain ⟨ha, hb⟩ := h
      rw [← ha, ← hb]
      simpa using ih a' b' hm
    | none =>
      rw [hm] at h
      by_cases hc : c = '.'
      · rw [if_pos hc] at h
        simp only [Option.some.injEq, Prod.mk.injEq] at h
        rw [← h.1, ← h.2]
        simp
      · rw [if_neg hc] at h
        simp at h

theorem splitExt_join (f : String) : (splitExt f).1 ++ (splitExt f).2 = f := by
  apply String.ext
  rw [String.data_append, splitExt]
  by_cases hdd : f.data = ['.', '.']
  · rw [if_pos hdd]
    simp
  · rw [if_neg hdd]
    cases hf : f.data with
    | nil => simp [hf]
    | cons c cs =>
      cases hm : lastDotSplit cs with
      | some p =>
        obtain ⟨a, b⟩ := p
        simp only [hm]
        show (c :: a) ++ b = c :: cs
        simp [lastDotSplit_append cs a b hm]
      | none => simp [hm, hf]

/-! ### The collision candidates are pairwise distinct -/

theorem cand_zero_ne_succ (dir filename : String) (k : Nat) :
    candidatePath dir filename 0 ≠ candidatePath dir filename (k + 1) := by
  intro h
  rw [candidatePath, candidatePath, pathJoin, pathJoin] at h
  have hd := congrArg String.data h
  simp only [String.data_append, List.append_assoc] at hd
  have h1 := List.append_cancel_left hd
  have h2 := List.append_cancel_left h1
  have hjoin := congrArg String.data (splitExt_join filename)
  simp only [String.data_append] at hjoin
  rw [← hjoin] at h2
  have h3 := List.append_cancel_left h2
  have h4 := congrArg List.length h3
  simp [List.length_append] at h4
  omega

theorem cand_succ_inj (dir filename : String) (j k : Nat)
    (h : candidatePath dir filename (j + 1) = candidatePath dir filename (k + 1)) :
    j = k := by
  rw [candidatePath, candidatePath, pathJoin, pathJoin] at h
  have hd := congrArg String.data h
  simp only [String.data_append, List.append_assoc] at hd
  have h1 := List.append_cancel_left hd
  have h2 := List.append_cancel_left h1
  have h3 := List.append_cancel_left h2
  have h4 := List.append_cancel_left h3
  have h5 := List.append_cancel_right h4
  have h6 : Nat.repr (j + 1) = Nat.repr (k + 1) := String.ext h5
  have := nat_repr_inj h6
  omega

theorem cand_inj (dir filename : String) :
    Function.Injective (candidatePath dir filename) := by
  intro j k h
  match j, k with
  | 0, 0 => rfl
  | 0, k + 1 => exact absurd h (cand_zero_ne_succ dir filename k)
  | j + 1, 0 => exact absurd h.symm (cand_zero_ne_succ dir filename j)
  | j + 1, k + 1 => rw [cand_succ_inj dir filename j k h]

/-! ### Pigeonhole: a free candidate exists within `fs.length + 1` tries -/

theorem card_le_of_busy (fs : List String) (dir filename : String) (k : Nat)
    (hbusy : ∀ j, j < k → candidatePath dir filename j ∈ fs) : k ≤ fs.length := by
  have hsub : (Finset.range k).image (candidatePath dir filename) ⊆ fs.toFinset := by
    intro p hp
    rw [Finset.mem_image] at hp
    obtain ⟨j, hj, rfl⟩ := hp
    rw [List.mem_toFinset]
    exact hbusy j (Finset.mem_range.mp hj)
  have hcard := Finset.card_le_card hsub
  rw [Finset.card_image_of_injective _ (cand_inj dir filename), Finset.card_range] at hcard
  exact hcard.trans fs.toFinset_card_le

theorem exists_candidate_not_mem (fs : List String) (dir filename : String) :
    ∃ k, k ≤ fs.length ∧ candidatePath dir filename k ∉ fs := by
  by_contra hcon
  push_neg at hcon
  have hbusy : ∀ j, j < fs.length + 1 → candidatePath dir filename j ∈ fs :=
    fun j hj => hcon j (by omega)
  have := card_le_of_busy fs dir filename (fs.length + 1) hbusy
  omega

/-! ### The collision loop returns the first free candidate -/

theorem resolveLoop_eq_of_least (fs : List String) (dir filename : String) :
    ∀ (fuel k m : Nat), m < fuel →
      (∀ j, j < m → candidatePath dir filename (k + j) ∈ fs) →
      candidatePath dir filename (k + m) ∉ fs →
      resolveLoop fs dir filename fuel (k + 1) (candidatePath dir filename k) =
        candidatePath dir filename (k + m) := by
  intro fuel
  induction fuel with
  | zero => intro k m hm; omega
  | succ fuel ih =>
    intro k m hm hbusy hfree
    rw [resolveLoop]
    by_cases hk : candidatePath dir filename k ∈ fs
    · have hm0 : m ≠ 0 := by
        rintro rfl
        exact hfree (by simpa using hk)
      rw [if_pos hk]
      have hstep := ih (k + 1) (m - 1) (by omega)
        (fun j hj => by
          have := hbusy (j + 1) (by omega)
          have harith : k + (j + 1) = k + 1 + j := by omega
          rwa [harith] at this)
        (by
          have harith : k + 1 + (m - 1) = k + m := by omega
          rwa [harith])
      have harith : k + 1 + (m - 1) = k + m := by omega
      rwa [harith] at hstep
    · have hm0 : m = 0 := by
        by_contra hne
        exact hk (by simpa using hbusy 0 (by omega))
      subst hm0
      rw [if_neg hk]
      simp

/-- The resolver characterised: if the first `k` candidates are taken and
candidate `k` is free, `getOutputPath` returns candidate `k`. -/
theorem getOutputPath_eq_candidate (fs : List String) (dir : String)
    (outputFilename? : Option String) (prompt : String) (index : Nat)
    (extension : String) (k : Nat)
    (hbusy : ∀ j, j < k →
      candidatePath dir (initialFilename outputFilename? prompt index extension) j ∈ fs)
    (hfree : candidatePath dir (initialFilename outputFilename? prompt index extension) k ∉ fs) :
    getOutputPath fs dir outputFilename? prompt index extension =
      candidatePath dir (initialFilename outputFilename? prompt index extension) k := by
  have hk : k ≤ fs.length := card_le_of_busy fs dir _ k hbusy
  have h0 : candidatePath dir (initialFilename outputFilename? prompt index extension) 0 =
      pathJoin dir (initialFilename outputFilename? prompt index extension) := rfl
  rw [getOutputPath, ← h0]
  have := resolveLoop_eq_of_least fs dir
    (initialFilename outputFilename? prompt index extension)
    (fs.length + 1) 0 k (by omega)
    (fun j hj => by simpa using hbusy j hj) (by simpa using hfree)
  simpa using this

/-- The path returned by the resolver never exists in `fs`. -/
theorem getOutputPath_not_mem (fs : List String) (dir : String)
    (outputFilename? : Option String) (prompt : String) (index : Nat)
    (extension : String) :
    getOutputPath fs dir outputFilename? prompt index extension ∉ fs := by
  classical
  set filename := initialFilename outputFilename? prompt index extension with hfn
  obtain ⟨k0, hk0, hfree0⟩ := exists_candidate_not_mem fs dir filename
  have hex : ∃ m, candidatePath dir filename m ∉ fs := ⟨k0, hfree0⟩
  set m := Nat.find hex with hm
  have hfree : candidatePath dir filename m ∉ fs := Nat.find_spec hex
  have hbusy : ∀ j, j < m → candidatePath dir filename j ∈ fs := by
    intro j hj
    have := Nat.find_min hex hj
    simpa using this
  rw [getOutputPath_eq_candidate fs dir outputFilename? prompt index extension m hbusy hfree]
  exact hfree

/-! ### Save loops produce fresh, pairwise-distinct paths -/

theorem replicateSaveLoop_not_mem (dir : String) (outputFilename? : Option String)
    (prompt : String) :
    ∀ (urls fs : List String) (i : Nat) (p : String),
      p ∈ replicateSaveLoop dir outputFilename? prompt fs i urls → p ∉ fs := by
  intro urls
  induction urls with
  | nil => intro fs i p hp; simp [replicateSaveLoop] at hp
  | cons u rest ih =>
    intro fs i p hp
    rw [replicateSaveLoop] at hp
    rcases List.mem_cons.mp hp with h | h
    · rw [h]
      exact getOutputPath_not_mem fs dir outputFilename? prompt i "png"
    · intro hmem
      exact ih _ (i + 1) p h (List.mem_cons_of_mem _ hmem)

theorem replicateSaveLoop_nodup (dir : String) (outputFilename? : Option String)
    (prompt : String) :
    ∀ (urls fs : List String) (i : Nat),
      (replicateSaveLoop dir outputFilename? prompt fs i urls).Nodup := by
  intro urls
  induction urls with
  | nil => intro fs i; simp [replicateSaveLoop]
  | cons u rest ih =>
    intro fs i
    rw [replicateSaveLoop]
    refine List.nodup_cons.mpr ⟨?_, ih _ _⟩
    intro hmem
    exact replicateSaveLoop_not_mem dir outputFilename? prompt rest _ (i + 1) _ hmem
      (List.mem_cons_self _ _)

theorem openaiSaveLoop_not_mem (dir : String) (outputFilename? : Option String)
    (prompt ext : String) :
    ∀ (data : List (Option String)) (fs : List String) (i : Nat) (p : String),
      p ∈ openaiSaveLoop dir outputFilename? prompt ext fs i data → p ∉ fs := by
  intro data
  induction data with
  | nil => intro fs i p hp; simp [openaiSaveLoop] at hp
  | cons item rest ih =>
    intro fs i p hp
    cases item with
    | none =>
      rw [openaiSaveLoop] at hp
      exact ih fs (i + 1) p hp
    | some d =>
      rw [openaiSaveLoop] at hp
      rcases List.mem_cons.mp hp with h | h
      · rw [h]
        exact getOutputPath_not_mem fs dir outputFilename? prompt i ext
      · intro hmem
        exact ih _ (i + 1) p h (List.mem_cons_of_mem _ hmem)

theorem openaiSaveLoop_nodup (dir : String) (outputFilename? : Option String)
    (prompt ext : String) :
    ∀ (data : List (Option String)) (fs : List String) (i : Nat),
      (openaiSaveLoop dir outputFilename? prompt ext fs i data).Nodup := by
  intro data
  induction data with
  | nil => intro fs i; simp [openaiSaveLoop]
  | cons item rest ih =>
    intro fs i
    cases item with
    | none => rw [openaiSaveLoop]; exact ih fs (i + 1)
    | some d =>
      rw [openaiSaveLoop]
      refine List.nodup_cons.mpr ⟨?_, ih _ _⟩
      intro hmem
      exact openaiSaveLoop_not_mem dir outputFilename? prompt ext rest _ (i + 1) _ hmem
        (List.mem_cons_self _ _)

theorem openaiSaveLoop_all_none (dir : String) (outputFilename? : Option String)
    (prompt ext : String) :
    ∀ (data : List (Option String)) (fs : List String) (i : Nat),
      data.all Option.isNone →
      openaiSaveLoop dir outputFilename? prompt ext fs i data = [] := by
  intro data
  induction data with
  | nil => intro fs i _; rw [openaiSaveLoop]
  | cons item rest ih =>
    intro fs i hall
    cases item with
    | none =>
      rw [openaiSaveLoop]
      exact ih fs (i + 1) (by simpa using hall)
    | some d => simp [Option.isNone] at hall

/-! ### Sanitization output characters -/

theorem collapseWsGo_mem : ∀ (l : List Char) (b : Bool) (c : Char),
    c ∈ collapseWsGo b l → c = '_' ∨ (c ∈ l ∧ isJsWhitespace c = false) := by
  intro l
  induction l with
  | nil => intro b c h; simp [collapseWsGo] at h
  | cons x xs ih =>
    intro b c h
    rw [collapseWsGo] at h
    by_cases hx : isJsWhitespace x = true
    · rw [if_pos hx] at h
      have htail : c ∈ collapseWsGo true xs ∨ c = '_' := by
        by_cases hb : b = true
        · rw [if_pos hb] at h
          exact Or.inl h
        · rw [if_neg hb] at h
          rcases List.mem_cons.mp h with h' | h'
          · exact Or.inr h'
          · exact Or.inl h'
      rcases htail with h' | h'
      · rcases ih true c h' with h'' | h''
        · exact Or.inl h''
        · exact Or.inr ⟨List.mem_cons_of_mem x h''.1, h''.2⟩
      · exact Or.inl h'
    · rw [if_neg hx] at h
      have hxf : isJsWhitespace x = false := by simpa using hx
      rcases List.mem_cons.mp h with h' | h'
      · subst h'
        exact Or.inr ⟨List.mem_cons_self c xs, hxf⟩
      · rcases ih false c h' with h'' | h''
        · exact Or.inl h''
        · exact Or.inr ⟨List.mem_cons_of_mem x h''.1, h''.2⟩

/-! ### Small string utilities -/

theorem string_append_assoc (a b c : String) : a ++ b ++ c = a ++ (b ++ c) := by
  apply String.ext
  simp [List.append_assoc]

theorem hasSuffixStr_append (s e : String) : hasSuffixStr (s ++ e) e = true := by
  rw [hasSuffixStr]
  rw [List.isSuffixOf_iff_suffix]
  rw [String.data_append]
  exact List.suffix_append s.data e.data

theorem dot_append_png : ("." : String) ++ "png" = ".png" := by decide

/-! ### Claims -/

/-- Claim C1: whenever a file already exists at the candidate path, the
resolver appends a space plus an incrementing counter starting at 1 to the
stem before the extension, recomputes, and repeats until a free path is
found; the counter composes with the `_<index>` suffix — the index is
applied first (inside `initialFilename`), the counter second
(`candidatePath ... k` for `k ≥ 1` splits the index-suffixed filename and
inserts a space and `k` before the extension).  The resolver returns the
first free candidate: if candidates `0..k-1` exist on disk and candidate
`k` does not, resolution returns candidate `k`.  In particular, if
`custom.png` exists, index 0 resolves to `custom 1.png` (see the
witness). -/
theorem claim_c1_collision_counter (fs : List String) (dir : String)
    (outputFilename? : Option String) (prompt : String) (index : Nat)
    (extension : String) (k : Nat)
    (hbusy : ∀ j, j < k →
      candidatePath dir (initialFilename outputFilename? prompt index extension) j ∈ fs)
    (hfree : candidatePath dir (initialFilename outputFilename? prompt index extension) k ∉ fs) :
    getOutputPath fs dir outputFilename? prompt index extension =
      candidatePath dir (initialFilename outputFilename? prompt index extension) k :=
  getOutputPath_eq_candidate fs dir outputFilename? prompt index extension k hbusy hfree

/-- Witness for C1: with `/out/custom.png` on disk, index 0 resolves to
`/out/custom 1.png`; the counter composes with the index suffix: with
`/out/custom_2.png` on disk, index 2 resolves to `/out/custom_2 1.png`. -/
theorem claim_c1_witness :
    getOutputPath ["/out/custom.png"] "/out" (some "custom.png") "x" 0 "png" =
      "/out/custom 1.png" ∧
    getOutputPath ["/out/custom_2.png"] "/out" (some "custom.png") "x" 2 "png" =
      "/out/custom_2 1.png" := by
  constructor
  · have h := claim_c1_collision_counter ["/out/custom.png"] "/out"
      (some "custom.png") "x" 0 "png" 1 (by decide) (by decide)
    exact h.trans (by decide)
  · have h := claim_c1_collision_counter ["/out/custom_2.png"] "/out"
      (some "custom.png") "x" 2 "png" 1 (by decide) (by decide)
    exact h.trans (by decide)

/-- Claim C2: every path returned by the output resolver does not exist on
the filesystem at the moment of resolution, and the save loops of
`generate` — where each resolution is immediately followed by a write
before the next resolution — produce pairwise distinct paths. -/
theorem claim_c2_fresh_distinct_paths :
    (∀ (fs : List String) (dir : String) (outputFilename? : Option String)
      (prompt : String) (index : Nat) (extension : String),
      getOutputPath fs dir outputFilename? prompt index extension ∉ fs) ∧
    (∀ (dir : String) (outputFilename? : Option String) (prompt : String)
      (urls fs : List String) (i : Nat),
      (replicateSaveLoop dir outputFilename? prompt fs i urls).Nodup) ∧
    (∀ (dir : String) (outputFilename? : Option String) (prompt ext : String)
      (data : List (Option String)) (fs : List String) (i : Nat),
      (openaiSaveLoop dir outputFilename? prompt ext fs i data).Nodup) :=
  ⟨getOutputPath_not_mem,
   fun dir o? prompt urls fs i => replicateSaveLoop_nodup dir o? prompt urls fs i,
   fun dir o? prompt ext data fs i => openaiSaveLoop_nodup dir o? prompt ext data fs i⟩

/-- Claim C4: for every prompt, the sanitized stem contains none of the
forbidden characters (`< > : " / \ | ? *` and U+0000-U+001F), contains no
whitespace at all (each maximal whitespace run was collapsed to a single
underscore by `collapseWs`), and is at most 200 characters long. -/
theorem claim_c4_sanitize_safe (prompt : String) :
    (∀ c ∈ (sanitizeFilename prompt).data, isFilenameIllegal c = false) ∧
    (∀ c ∈ (sanitizeFilename prompt).data, isJsWhitespace c = false) ∧
    (sanitizeFilename prompt).length ≤ 200 := by
  refine ⟨?_, ?_, ?_⟩
  · intro c hc
    have hc' : c ∈ collapseWs (prompt.data.filter (fun c => !isFilenameIllegal c)) :=
      List.take_subset 200 _ hc
    rcases collapseWsGo_mem _ false c hc' with h | h
    · rw [h]; rfl
    · have hmem := List.mem_filter.mp h.1
      simpa using hmem.2
  · intro c hc
    have hc' : c ∈ collapseWs (prompt.data.filter (fun c => !isFilenameIllegal c)) :=
      List.take_subset 200 _ hc
    rcases collapseWsGo_mem _ false c hc' with h | h
    · rw [h]; rfl
    · exact h.2
  · exact List.length_take_le 200 _

/-- Witness for C4: at the prompt `a b<c` (sanitized to `a_bc`), the
underscore in the output is not a forbidden character and the stem length
is within bounds. -/
theorem claim_c4_witness :
    isFilenameIllegal '_' = false ∧ (sanitizeFilename "a b<c").length ≤ 200 :=
  ⟨(claim_c4_sanitize_safe "a b<c").1 '_' (by decide),
   (claim_c4_sanitize_safe "a b<c").2.2⟩

theorem custom_underscore : ("custom" : String) ++ "_" = "custom_" := by decide

theorem initialFilename_prompt_shape (prompt : String) (i : Nat) :
    initialFilename none prompt i "png" =
      (if i = 0 then sanitizeFilename prompt ++ ".png"
       else sanitizeFilename prompt ++ "_" ++ Nat.repr i ++ ".png") := by
  cases i with
  | zero =>
    rw [if_pos rfl]
    simp only [initialFilename, gt_iff_lt, Nat.lt_irrefl, if_false]
    rw [string_append_assoc, dot_append_png]
  | succ j =>
    simp only [initialFilename, gt_iff_lt, Nat.succ_pos, if_true, Nat.succ_ne_zero, if_false]
    rw [string_append_assoc (sanitizeFilename prompt ++ "_" ++ Nat.repr (j + 1)) "." "png",
      dot_append_png]

theorem initialFilename_custom_shape (prompt : String) (i : Nat) :
    initialFilename (some "custom.png") prompt i "png" =
      (if i = 0 then "custom.png" else "custom_" ++ Nat.repr i ++ ".png") := by
  have hsp : splitExt "custom.png" = ("custom", ".png") := by decide
  cases i with
  | zero =>
    rw [if_pos rfl]
    simp only [initialFilename, hsp, gt_iff_lt, Nat.lt_irrefl, if_false]
    rw [if_neg (by decide : ¬(".png" : String) = "")]
    decide
  | succ j =>
    simp only [initialFilename, hsp, gt_iff_lt, Nat.succ_pos, if_true, Nat.succ_ne_zero, if_false]
    rw [if_neg (by decide : ¬(".png" : String) = "")]
    rw [custom_underscore]

/-- Claim C3: absent collisions, the i-th of N images appends `_i` to the
stem only for `i > 0` and never for `i = 0`, in both the prompt-derived
and explicit-filename branches: the prompt branch yields
`<sanitized>.png` / `<sanitized>_i.png`, and the explicit filename
`custom.png` yields `custom.png` / `custom_i.png`. -/
theorem claim_c3_index_naming (fs : List String) (dir prompt : String) (i : Nat)
    (hfree1 : pathJoin dir (initialFilename none prompt i "png") ∉ fs)
    (hfree2 : pathJoin dir (initialFilename (some "custom.png") prompt i "png") ∉ fs) :
    (getOutputPath fs dir none prompt i "png" =
      pathJoin dir (if i = 0 then sanitizeFilename prompt ++ ".png"
        else sanitizeFilename prompt ++ "_" ++ Nat.repr i ++ ".png")) ∧
    (getOutputPath fs dir (some "custom.png") prompt i "png" =
      pathJoin dir (if i = 0 then "custom.png"
        else "custom_" ++ Nat.repr i ++ ".png")) := by
  constructor
  · have h := getOutputPath_eq_candidate fs dir none prompt i "png" 0
      (fun j hj => absurd hj (Nat.not_lt_zero j)) hfree1
    rw [h]
    show pathJoin dir (initialFilename none prompt i "png") = _
    rw [initialFilename_prompt_shape]
  · have h := getOutputPath_eq_candidate fs dir (some "custom.png") prompt i "png" 0
      (fun j hj => absurd hj (Nat.not_lt_zero j)) hfree2
    rw [h]
    show pathJoin dir (initialFilename (some "custom.png") prompt i "png") = _
    rw [initialFilename_custom_shape]

/-- Witness for C3: on an empty filesystem, prompt `sunset` yields
`/out/sunset.png` and `/out/sunset_1.png` for indices 0 and 1, and
explicit `custom.png` yields `/out/custom_2.png` for index 2. -/
theorem claim_c3_witness :
    getOutputPath [] "/out" none "sunset" 0 "png" = "/out/sunset.png" ∧
    getOutputPath [] "/out" none "sunset" 1 "png" = "/out/sunset_1.png" ∧
    getOutputPath [] "/out" (some "custom.png") "sunset" 2 "png" = "/out/custom_2.png" := by
  refine ⟨?_, ?_, ?_⟩
  · have h := claim_c3_index_naming [] "/out" "sunset" 0 (by decide) (by decide)
    exact h.1.trans (by decide)
  · have h := claim_c3_index_naming [] "/out" "sunset" 1 (by decide) (by decide)
    exact h.1.trans (by decide)
  · have h := claim_c3_index_naming [] "/out" "sunset" 2 (by decide) (by decide)
    exact h.2.trans (by decide)

/-- Counterexample for C5: for the legal size value `auto` (a non-empty
string with no digits), the split component is truthy, so `parseInt`
runs on it and produces `NaN` — the width does not default to 1024. -/
theorem claim_c5_counterexample :
    (replicateInput { prompt := "p", size := some "auto" }).width = none ∧
    ¬ (replicateInput { prompt := "p", size := some "auto" }).width = some 1024 := by
  decide

/-- Claim C5 (amended): width and height are obtained by splitting the
size string on `x` and `parseInt`-ing the parts (`512x768` gives width
512, height 768); a dimension falls back to `1024` only when its split
component is missing or empty — in particular both are 1024 when the size
is absent — while a non-empty unparsable component yields `NaN`
(e.g. size `auto` gives width `NaN` and height 1024). -/
theorem claim_c5_amended_size_parsing :
    (∀ o : GenerateOptions, o.size = some "512x768" →
      (replicateInput o).width = some 512 ∧ (replicateInput o).height = some 768) ∧
    (∀ o : GenerateOptions, o.size = none →
      (replicateInput o).width = some 1024 ∧ (replicateInput o).height = some 1024) ∧
    (∀ o : GenerateOptions, o.size = some "auto" →
      (replicateInput o).width = none ∧ (replicateInput o).height = some 1024) := by
  refine ⟨?_, ?_, ?_⟩ <;> intro o h <;> constructor
  · show jsParseInt (sizeComponent o.size 0) = some 512
    rw [h]; decide
  · show jsParseInt (sizeComponent o.size 1) = some 768
    rw [h]; decide
  · show jsParseInt (sizeComponent o.size 0) = some 1024
    rw [h]; decide
  · show jsParseInt (sizeComponent o.size 1) = some 1024
    rw [h]; decide
  · show jsParseInt (sizeComponent o.size 0) = none
    rw [h]; decide
  · show jsParseInt (sizeComponent o.size 1) = some 1024
    rw [h]; decide

/-- Witness for C5 (amended), at concrete option records. -/
theorem claim_c5_witness :
    (replicateInput { prompt := "p", size := some "512x768" }).width = some 512 ∧
    (replicateInput { prompt := "p", size := some "512x768" }).height = some 768 ∧
    (replicateInput { prompt := "q" }).width = some 1024 :=
  ⟨(claim_c5_amended_size_parsing.1 _ rfl).1,
   (claim_c5_amended_size_parsing.1 _ rfl).2,
   (claim_c5_amended_size_parsing.2.1 _ rfl).1⟩

/-- Counterexample for C6: with an unknown provider and no explicit API
key, the constructor's key lookup (which knows no environment variable
for an unknown provider) comes back empty and the missing-credential
error is thrown first — not the unsupported-provider error the claim
names. -/
theorem claim_c6_counterexample :
    constructGenerator
      { provider := "stability", apiKey? := none, outputDir? := none, outputFilename? := none }
      (fun _ => none) "/cwd" = .error (.missingKey "stability") ∧
    CtorError.missingKey "stability" ≠ CtorError.unsupported "stability" :=
  ⟨rfl, by decide⟩

/-- Claim C6 (amended): for every provider tag outside
`{openai, replicate}`, construction fails before any network call could
happen (the provider clients are only created on success): with a
non-empty explicit API key the failure is `UnsupportedProviderError`,
otherwise it is the missing-credential error, because the environment
lookup yields nothing for an unknown provider. -/
theorem claim_c6_amended_unknown_provider (opts : ImageGeneratorOptions)
    (env : String → Option String) (cwd : String)
    (h1 : opts.provider ≠ "openai") (h2 : opts.provider ≠ "replicate") :
    constructGenerator opts env cwd =
      (match opts.apiKey? with
       | some k =>
         if k = "" then Except.error (CtorError.missingKey opts.provider)
         else Except.error (CtorError.unsupported opts.provider)
       | none => Except.error (CtorError.missingKey opts.provider)) := by
  cases hk : opts.apiKey? with
  | none => simp [constructGenerator, jsOrOptStr, getApiKeyFromEnv, h1, h2, hk]
  | some k =>
    by_cases hkk : k = ""
    · simp [constructGenerator, jsOrOptStr, getApiKeyFromEnv, h1, h2, hk, hkk]
    · simp [constructGenerator, jsOrOptStr, getApiKeyFromEnv, h1, h2, hk, hkk]

/-- Witness for C6 (amended): unknown provider with an explicit key fails
with the unsupported-provider error. -/
theorem claim_c6_witness :
    constructGenerator
      { provider := "stability", apiKey? := some "sk-123", outputDir? := none, outputFilename? := none }
      (fun _ => none) "/cwd" = .error (.unsupported "stability") := by
  have h := claim_c6_amended_unknown_provider
    { provider := "stability", apiKey? := some "sk-123", outputDir? := none, outputFilename? := none }
    (fun _ => none) "/cwd" (by decide) (by decide)
  exact h.trans rfl

/-- Counterexample for C7: the library's `generate` performs no prompt
validation — with an empty prompt the payload is still built (carrying
the empty prompt) and a provider response is consumed and saved, so the
option-mapping step does not fail. -/
theorem claim_c7_counterexample :
    openaiGenerateParams { prompt := "" } =
      { model := "gpt-image-1", prompt := "", size := "1024x1024", quality := "auto",
        n := 1, output_format := none, output_compression := none, background := none } ∧
    generateOpenai [] { provider := "openai", outputDir := "/out", outputFilename? := none }
      { prompt := "" } (.ok [some "b64data"]) = .ok ["/out/.png"] :=
  ⟨by decide, rfl⟩

/-- Claim C7 (amended): the library builds the payload with whatever
prompt is supplied, including the empty one (no `InvalidOptionError`
exists in the code); only the CLI rejects an empty or missing prompt,
printing an error and exiting before a generator is constructed. -/
theorem claim_c7_amended_prompt_check :
    (∀ o : GenerateOptions, (openaiGenerateParams o).prompt = o.prompt) ∧
    (∀ p? : Option String, (p? = none ∨ p? = some "") →
      cliPromptCheck p? =
        .error "Error: Prompt is required. Use --prompt \"your prompt text\"") := by
  constructor
  · intro o; rfl
  · intro p? h
    rcases h with h | h <;> subst h <;> rfl

/-- Witness for C7 (amended): the CLI rejects a missing prompt. -/
theorem claim_c7_witness :
    cliPromptCheck none =
      .error "Error: Prompt is required. Use --prompt \"your prompt text\"" :=
  claim_c7_amended_prompt_check.2 none (Or.inl rfl)

/-- Counterexample for C8: a successful provider response whose items
carry no usable image data makes `generate` succeed with an empty list
instead of failing with a `ProviderRequestError`. -/
theorem claim_c8_counterexample :
    generateOpenai [] { provider := "openai", outputDir := "/out", outputFilename? := none }
      { prompt := "hi" } (.ok [none, none]) = .ok [] := rfl

/-- Claim C8 (amended): when the remote call itself fails, `generate`
fails with an error wrapping the underlying message
(`Failed to generate image: ...`), on both provider paths; but a
successful response with no usable image data yields success with an
empty (or shortened) result list, not an error. -/
theorem claim_c8_amended_error_wrapping :
    (∀ (fs : List String) (g : Generator) (o : GenerateOptions) (e : String),
      generateOpenai fs g o (.error e) = .error ("Failed to generate image: " ++ e)) ∧
    (∀ (fs : List String) (g : Generator) (o : GenerateOptions) (e : String),
      generateReplicate fs g o (.error e) = .error ("Failed to generate image: " ++ e)) ∧
    (∀ (fs : List String) (g : Generator) (o : GenerateOptions)
      (data : List (Option String)), data.all Option.isNone →
      generateOpenai fs g o (.ok data) = .ok []) := by
  refine ⟨fun _ _ _ _ => rfl, fun _ _ _ _ => rfl, ?_⟩
  intro fs g o data hall
  show Except.ok (openaiSaveLoop g.outputDir g.outputFilename? o.prompt
    (formatExtension o.format) fs 0 data) = Except.ok []
  rw [openaiSaveLoop_all_none g.outputDir g.outputFilename? o.prompt
    (formatExtension o.format) data fs 0 hall]

/-- Witness for C8 (amended): a response with one unusable item yields
success with the empty list. -/
theorem claim_c8_witness :
    generateOpenai ["/a"] { provider := "openai", outputDir := "/out", outputFilename? := none }
      { prompt := "x" } (.ok [none]) = .ok [] :=
  claim_c8_amended_error_wrapping.2.2 ["/a"] _ _ [none] (by decide)

/-- Claim C9: in the OpenAI payload, restricted to the option values the
TypeScript interface allows, `output_format` is attached iff `format` is
supplied and differs from `png`; `output_compression` is attached only
when `compression` is supplied and `format` is `jpeg` or `webp`; and
`background` is attached iff it is supplied. -/
theorem claim_c9_optional_fields (o : GenerateOptions)
    (hf : o.format = none ∨ o.format = some "png" ∨ o.format = some "jpeg" ∨
      o.format = some "webp")
    (hb : o.background = none ∨ o.background = some "transparent" ∨
      o.background = some "opaque") :
    ((openaiGenerateParams o).output_format.isSome ↔
      (o.format.isSome ∧ o.format ≠ some "png")) ∧
    ((openaiGenerateParams o).output_compression.isSome →
      (o.compression.isSome ∧ (o.format = some "jpeg" ∨ o.format = some "webp"))) ∧
    ((openaiGenerateParams o).background.isSome ↔ o.background.isSome) := by
  refine ⟨?_, ?_, ?_⟩
  · rcases hf with h | h | h | h <;> simp +decide [openaiGenerateParams, h]
  · intro hc
    cases hcomp : o.compression with
    | none =>
      exfalso
      have hnone : (openaiGenerateParams o).output_compression = none := by
        simp [openaiGenerateParams, hcomp]
      rw [hnone] at hc
      simp at hc
    | some c =>
      by_cases hcond : c ≠ 0 ∧ (o.format = some "jpeg" ∨ o.format = some "webp")
      · exact ⟨rfl, hcond.2⟩
      · exfalso
        have hnone : (openaiGenerateParams o).output_compression = none := by
          simp only [openaiGenerateParams]
          rw [hcomp]
          simp [hcond]
        rw [hnone] at hc
        simp at hc
  · rcases hb with h | h | h <;> simp +decide [openaiGenerateParams, h]

/-- Witness for C9, at a record with all three optional fields supplied
and a `jpeg` format. -/
theorem claim_c9_witness :
    ((openaiGenerateParams
        { prompt := "x", format := some "jpeg", compression := some 80,
          background := some "transparent" }).output_format.isSome ↔
      ((some "jpeg" : Option String).isSome ∧ (some "jpeg" : Option String) ≠ some "png")) ∧
    ((openaiGenerateParams
        { prompt := "x", format := some "jpeg", compression := some 80,
          background := some "transparent" }).output_compression.isSome →
      ((some 80 : Option Nat).isSome ∧
        ((some "jpeg" : Option String) = some "jpeg" ∨
          (some "jpeg" : Option String) = some "webp"))) ∧
    ((openaiGenerateParams
        { prompt := "x", format := some "jpeg", compression := some 80,
          background := some "transparent" }).background.isSome ↔
      (some "transparent" : Option String).isSome) :=
  claim_c9_optional_fields
    { prompt := "x", format := some "jpeg", compression := some 80,
      background := some "transparent" }
    (Or.inr (Or.inr (Or.inl rfl))) (Or.inr (Or.inl rfl))

/-- Counterexample for C10: with an explicit output filename
`custom.jpg`, the Replicate path saves to a `.jpg` file — the saved path
does not end in `.png`. -/
theorem claim_c10_counterexample :
    generateReplicate []
      { provider := "replicate", outputDir := "/out", outputFilename? := some "custom.jpg" }
      { prompt := "hi", format := some "webp" } (.ok ["http://img"]) =
      .ok ["/out/custom.jpg"] ∧
    hasSuffixStr "/out/custom.jpg" ".png" = false :=
  ⟨rfl, by decide⟩

/-- Claim C10 (amended): the Replicate save path never depends on the
`format` option (the Replicate branch does not read it, and the resolver
is invoked with its default extension); absent collisions, when no
explicit output filename is configured every saved path ends in `.png`;
an explicit output filename keeps its own extension instead (see the
counterexample). -/
theorem claim_c10_amended_png_extension :
    (∀ (fs : List String) (g : Generator) (o : GenerateOptions) (fmt : Option String)
      (res : Except String (List String)),
      generateReplicate fs g { o with format := fmt } res = generateReplicate fs g o res) ∧
    (∀ (fs : List String) (dir prompt : String) (i : Nat),
      pathJoin dir (initialFilename none prompt i "png") ∉ fs →
      hasSuffixStr (getOutputPath fs dir none prompt i "png") ".png" = true) := by
  constructor
  · intro fs g o fmt res
    rfl
  · intro fs dir prompt i hfree
    have h := getOutputPath_eq_candidate fs dir none prompt i "png" 0
      (fun j hj => absurd hj (Nat.not_lt_zero j)) hfree
    rw [h]
    show hasSuffixStr (pathJoin dir (initialFilename none prompt i "png")) ".png" = true
    have hfn : ∃ x : String, initialFilename none prompt i "png" = x ++ ".png" := by
      cases i with
      | zero =>
        refine ⟨sanitizeFilename prompt, ?_⟩
        simp only [initialFilename, gt_iff_lt, Nat.lt_irrefl, if_false]
        rw [string_append_assoc, dot_append_png]
      | succ j =>
        refine ⟨sanitizeFilename prompt ++ "_" ++ Nat.repr (j + 1), ?_⟩
        simp only [initialFilename, gt_iff_lt, Nat.succ_pos, if_true]
        rw [string_append_assoc (sanitizeFilename prompt ++ "_" ++ Nat.repr (j + 1)) "." "png",
          dot_append_png]
    obtain ⟨x, hx⟩ := hfn
    rw [hx, pathJoin]
    rw [show dir ++ "/" ++ (x ++ ".png") = dir ++ "/" ++ x ++ ".png" from
      (string_append_assoc (dir ++ "/") x ".png").symm]
    exact hasSuffixStr_append (dir ++ "/" ++ x) ".png"

/-- Witness for C10 (amended): on an empty filesystem a prompt-derived
Replicate path ends in `.png`. -/
theorem claim_c10_witness :
    hasSuffixStr (getOutputPath [] "/out" none "hi" 0 "png") ".png" = true :=
  claim_c10_amended_png_extension.2 [] "/out" "hi" 0 (by decide)

end AiImage
